import Mathlib

/-!
Verification of the cost-allocation and margin-computation engine of the
mini-muse inventory application.

Monetary values are embedded as exact rationals (`ℚ`); Python `Decimal`
arithmetic on the amounts involved here is exact except for division, which
Python performs at 28 significant digits — far inside the one-cent tolerances
the specification states, so `ℚ` is a faithful model for every property
proved below.  Calendar dates are embedded as integers (`ℤ`, any
order-preserving day index), and nullable columns as `Option`.

Sources embedded:
* `src/app/purchases/routes.py` — `_recalc_allocations` (freight allocation),
* `src/app/sales/routes.py` — `_gross_to_net`, `_effective_po_date`,
  `_line_landed_cost`, `_compute_unit_cost_basis`, and the per-line
  discount-allocation / margin computation inside `import_commit`,
* `src/app/api/sales.py` — `_q2`, `compute_snapshots`,
* `src/app/routes/sales.py` — `calculate_sale_metrics`.
-/

/-! ## Rounding helpers (src/app/api/sales.py, src/app/routes/sales.py) -/

/-- Python `ROUND_HALF_UP` (ties away from zero) to an integer. -/
def roundHalfUpInt (x : ℚ) : ℤ :=
  if x < 0 then -⌊-x + 1/2⌋ else ⌊x + 1/2⌋

/-- `_q2` from `src/app/api/sales.py`:
`x.quantize(Decimal("0.01"), rounding=ROUND_HALF_UP)`. -/
def q2 (x : ℚ) : ℚ := (roundHalfUpInt (100 * x) : ℚ) / 100

/-- Python `ROUND_HALF_EVEN` (the `Decimal` context default) to an integer. -/
def roundHalfEvenInt (x : ℚ) : ℤ :=
  let f := ⌊x⌋
  let r := x - (f : ℚ)
  if r < 1/2 then f else if 1/2 < r then f + 1 else if f % 2 = 0 then f else f + 1

/-- `x.quantize(Decimal('0.01'))` with the default context rounding
(ROUND_HALF_EVEN), as used by `calculate_sale_metrics`. -/
def q2HalfEven (x : ℚ) : ℚ := (roundHalfEvenInt (100 * x) : ℚ) / 100

/-- `compute_snapshots` from `src/app/api/sales.py` (lines 13-17). -/
def compute_snapshots (gross_price vat_rate total_cost_net : ℚ) : ℚ × ℚ × ℚ :=
  let net_rev := q2 (gross_price / (1 + vat_rate))
  let vat_amt := q2 (gross_price - net_rev)
  let profit := q2 (net_rev - total_cost_net)
  (net_rev, vat_amt, profit)

/-- `calculate_sale_metrics` from `src/app/routes/sales.py` (lines 27-46);
its three outputs are quantized to 2 decimal places with the *default*
`Decimal` rounding (half-even). -/
def calculate_sale_metrics (selling_price_gross vat_rate net_unit_cost
    freight_net packaging_net delivery_cost_net other_cost_net : ℚ) : ℚ × ℚ × ℚ :=
  let vat_multiplier := 1 + vat_rate
  let net_revenue := selling_price_gross / vat_multiplier
  let vat_amount := selling_price_gross - net_revenue
  let total_costs := net_unit_cost + freight_net + packaging_net
      + delivery_cost_net + other_cost_net
  let profit := net_revenue - total_costs
  (q2HalfEven net_revenue, q2HalfEven vat_amount, q2HalfEven profit)

/-! ## Data model (src/app/models.py) — the fields the engine reads/writes -/

/-- `PurchaseOrder` (src/app/models.py lines 74-98).  `allocation_method`
is a string column with default `"value"` (comment: `value|qty`). -/
structure PurchaseOrder where
  id : ℤ := 0
  order_date : Option ℤ := none
  arrival_date : Option ℤ := none
  created_at : Option ℤ := none
  freight_total : Option ℚ := none
  allocation_method : String := "value"
  deriving DecidableEq

/-- `PurchaseLine` (src/app/models.py lines 101-126). -/
structure PurchaseLine where
  sku : String := ""
  qty : ℤ := 0
  unit_cost_net : ℚ := 0
  packaging_per_unit : Option ℚ := none
  freight_allocated_total : Option ℚ := none
  freight_allocated_per_unit : Option ℚ := none
  landed_unit_cost : Option ℚ := none
  deriving DecidableEq

/-! ## Freight allocation (src/app/purchases/routes.py, `_recalc_allocations`) -/

/-- Allocation weight in the `"qty"` branch: `Decimal(ln.qty or 0)`. -/
def qtyBase (ln : PurchaseLine) : ℚ := (ln.qty : ℚ)

/-- Allocation weight in the value branch:
`Decimal(str(ln.unit_cost_net)) * Decimal(ln.qty or 0)`. -/
def valueBase (ln : PurchaseLine) : ℚ := ln.unit_cost_net * (ln.qty : ℚ)

/-- The zero/negative-freight branch of `_recalc_allocations`
(routes.py lines 76-83): allocations zeroed, landed cost = unit + packaging. -/
def allocZeroLine (ln : PurchaseLine) : PurchaseLine :=
  { ln with
    freight_allocated_total := some 0
    freight_allocated_per_unit := some 0
    landed_unit_cost := some (ln.unit_cost_net + ln.packaging_per_unit.getD 0) }

/-- One line of the proportional-allocation loop (routes.py lines 89-96 and
102-109), parameterised by the weight function of the chosen method.
`qty = Decimal(ln.qty or 0) or Decimal("1")` maps a zero quantity to 1. -/
def allocLine (freight_total base_total : ℚ) (base : PurchaseLine → ℚ)
    (ln : PurchaseLine) : PurchaseLine :=
  let alloc := if 0 < base_total then freight_total * base ln / base_total else 0
  let qty : ℚ := if (ln.qty : ℚ) = 0 then 1 else (ln.qty : ℚ)
  let fapu := if 0 < qty then alloc / qty else 0
  { ln with
    freight_allocated_total := some alloc
    freight_allocated_per_unit := some fapu
    landed_unit_cost := some (ln.unit_cost_net + fapu + ln.packaging_per_unit.getD 0) }

/-- `_recalc_allocations` (src/app/purchases/routes.py lines 69-111), acting on
the order's list of lines and returning the mutated lines. -/
def recalc_allocations (po : PurchaseOrder) (lines : List PurchaseLine) :
    List PurchaseLine :=
  if po.freight_total.getD 0 ≤ 0 then
    lines.map allocZeroLine
  else if (if po.allocation_method = "" then "value" else po.allocation_method) = "qty" then
    lines.map (allocLine (po.freight_total.getD 0) ((lines.map qtyBase).sum) qtyBase)
  else
    lines.map (allocLine (po.freight_total.getD 0) ((lines.map valueBase).sum) valueBase)

/-! ## VAT conversion (src/app/sales/routes.py, `_gross_to_net`) -/

/-- `_gross_to_net` (sales/routes.py lines 79-87).  A `None` VAT rate
defaults to 18; a non-positive factor returns the gross unchanged. -/
def gross_to_net (gross : ℚ) (vat_rate : Option ℚ) : ℚ :=
  let vr := vat_rate.getD 18
  let factor := 1 + vr / 100
  if factor ≤ 0 then gross else gross / factor

/-! ## Cost-basis resolution (src/app/sales/routes.py, `_compute_unit_cost_basis`) -/

/-- `_effective_po_date` (sales/routes.py lines 90-100):
arrival date, else order date, else creation date, else `None`. -/
def effective_po_date (po : PurchaseOrder) : Option ℤ :=
  match po.arrival_date with
  | some d => some d
  | none =>
    match po.order_date with
    | some d => some d
    | none => po.created_at

/-- `_line_landed_cost` (sales/routes.py lines 103-111). -/
def line_landed_cost (pl : PurchaseLine) : ℚ :=
  match pl.landed_unit_cost with
  | some c => c
  | none => pl.unit_cost_net + pl.packaging_per_unit.getD 0

/-- A candidate purchase line as enriched by `_compute_unit_cost_basis`
(lines 138-145): `(effective date, order id, qty, landed cost)`. -/
structure Cand where
  eff : Option ℤ
  po_id : ℤ
  qty : ℤ
  cost : ℚ
  deriving DecidableEq

/-- The `before` predicate (line 151):
`r[0] is not None and sale_date is not None and r[0] <= sale_date`. -/
def isBefore (sale_date : Option ℤ) (c : Cand) : Bool :=
  match c.eff, sale_date with
  | some e, some sd => e ≤ sd
  | _, _ => false

/-- Python comparison `key(a) >= key(b)` for the sort key
`(x[0] is None, x[0])`: a `None` date compares *above* every real date
(so with `reverse=True` it sorts first). Two `None` keys tie (Python would
raise a `TypeError` there; no claim depends on that case). -/
def keyGE (a b : Cand) : Bool :=
  match a.eff, b.eff with
  | none, none => true
  | none, some _ => true
  | some _, none => false
  | some d1, some d2 => d2 ≤ d1

/-- Stable insertion for `sortDesc`. -/
def insertDesc (a : Cand) : List Cand → List Cand
  | [] => [a]
  | b :: l => if keyGE a b then a :: b :: l else b :: insertDesc a l

/-- Python `sorted(candidates, key=lambda x: (x[0] is None, x[0]), reverse=True)`
(lines 157-161): stable, descending by key. -/
def sortDesc : List Cand → List Cand
  | [] => []
  | a :: l => insertDesc a (sortDesc l)

/-- The enriched candidate pool: positive-quantity purchase lines of the SKU
with effective date, order id and landed cost (lines 138-145). -/
def enrichedOf (sku : String) (rows : List (PurchaseLine × PurchaseOrder)) :
    List Cand :=
  (rows.filter (fun r => r.1.sku = sku)).filterMap fun r =>
    if r.1.qty ≤ 0 then none
    else some ⟨effective_po_date r.2, r.2.id, r.1.qty, line_landed_cost r.1⟩

/-- The `before` subset (line 151). -/
def beforeOf (sku : String) (sale_date : Option ℤ)
    (rows : List (PurchaseLine × PurchaseOrder)) : List Cand :=
  (enrichedOf sku rows).filter (isBefore sale_date)

/-- `candidates = before if before else enriched` (line 154). -/
def candidatesOf (sku : String) (sale_date : Option ℤ)
    (rows : List (PurchaseLine × PurchaseOrder)) : List Cand :=
  if (beforeOf sku sale_date rows).isEmpty then enrichedOf sku rows
  else beforeOf sku sale_date rows

/-- The weighted-average tail of `_compute_unit_cost_basis` (lines 167-174). -/
def wAvg (cands : List Cand) : ℚ × Option ℤ :=
  let total_qty : ℚ := (cands.map fun c => (c.qty : ℚ)).sum
  if total_qty ≤ 0 then (0, none)
  else (((cands.map fun c => (c.qty : ℚ) * c.cost).sum) / total_qty, none)

/-- `_compute_unit_cost_basis` (sales/routes.py lines 114-174).
`rows` is the join of purchase lines with their owning orders. -/
def compute_unit_cost_basis (sku : String) (sale_date : Option ℤ)
    (method : String) (rows : List (PurchaseLine × PurchaseOrder)) :
    ℚ × Option ℤ :=
  if sku = "" then (0, none)
  else if (rows.filter (fun r => r.1.sku = sku)).isEmpty then (0, none)
  else if (enrichedOf sku rows).isEmpty then (0, none)
  else
    let cands := candidatesOf sku sale_date rows
    let sorted := sortDesc cands
    if (if method = "" then "weighted_avg" else method) = "last" then
      let c := sorted.headD ⟨none, 0, 0, 0⟩
      (c.cost, if c.po_id ≠ 0 then some c.po_id else none)
    else
      wAvg cands

/-! ## Sales import commit (src/app/sales/routes.py, `import_commit`) -/

/-- One entry of the `prepared` list built in `import_commit`
(lines 531-575): a committed sales line before allocation (SKU found,
`qty > 0`). -/
structure Prepared where
  sku : String := ""
  qty : ℤ := 0
  unit_price_gross : ℚ := 0
  line_discount_gross : ℚ := 0
  vat_rate : ℚ := 18
  deriving DecidableEq

/-- `base_after_line_discount` (lines 560-563):
`max(0, unit_price_gross*qty - line_discount_gross)`, written as the
source's clamp. -/
def baseAfterLineDiscount (p : Prepared) : ℚ :=
  let b := p.unit_price_gross * (p.qty : ℚ) - p.line_discount_gross
  if b < 0 then 0 else b

/-- `total_base` (line 577). -/
def totalBase (ps : List Prepared) : ℚ := (ps.map baseAfterLineDiscount).sum

/-- The per-line order-discount allocation (lines 582-584). -/
def orderDiscountAlloc (order_discount_total total_base : ℚ) (p : Prepared) : ℚ :=
  if 0 < order_discount_total ∧ 0 < total_base then
    order_discount_total * (baseAfterLineDiscount p / total_base)
  else 0

/-- The derived fields persisted on a `SalesLine` by `import_commit`. -/
structure SalesLineOut where
  order_discount_alloc_gross : Option ℚ
  unit_price_net : ℚ
  revenue_net : ℚ
  unit_cost_basis : ℚ
  cost_total : ℚ
  profit : ℚ
  cost_source_po_id : Option ℤ
  deriving DecidableEq

/-- The body of the per-line loop of `import_commit` (lines 580-618), given
the allocation inputs and the resolved cost basis.  Note
`p["item"].vat_rate or Decimal("18.00")` maps a zero VAT rate to 18, and
`alloc if alloc != 0 else None` stores a zero allocation as `None`. -/
def mkSalesLine (order_discount_total total_base : ℚ) (basis : ℚ × Option ℤ)
    (p : Prepared) : SalesLineOut :=
  let alloc := orderDiscountAlloc order_discount_total total_base p
  let g := baseAfterLineDiscount p - alloc
  let gross_after_all_discounts := if g < 0 then 0 else g
  let vat_rate : ℚ := if p.vat_rate = 0 then 18 else p.vat_rate
  let unit_price_net := gross_to_net p.unit_price_gross (some vat_rate)
  let revenue_net := gross_to_net gross_after_all_discounts (some vat_rate)
  let cost_total := basis.1 * (p.qty : ℚ)
  { order_discount_alloc_gross := if alloc ≠ 0 then some alloc else none
    unit_price_net := unit_price_net
    revenue_net := revenue_net
    unit_cost_basis := basis.1
    cost_total := cost_total
    profit := revenue_net - cost_total
    cost_source_po_id := basis.2 }

/-! ## Concrete example data used by individual claim checks -/

/-- C2 example: two prepared sales lines with bases 15 and 5. -/
def c2ps : List Prepared :=
  [ { sku := "A", qty := 2, unit_price_gross := 10, line_discount_gross := 5 },
    { sku := "B", qty := 1, unit_price_gross := 5 } ]

/-- C4/C5 example: SKU "X" purchased twice — 2024-01-01 (day 1) qty 10 at
landed cost 5.00 from order 1, and 2024-02-01 (day 32) qty 10 at landed cost
7.00 from order 2. -/
def xRows : List (PurchaseLine × PurchaseOrder) :=
  [ ({ sku := "X", qty := 10, landed_unit_cost := some 5 }, { id := 1, arrival_date := some 1 }),
    ({ sku := "X", qty := 10, landed_unit_cost := some 7 }, { id := 2, arrival_date := some 32 }) ]

/-- C6 failing input: SKU "X" with one purchase line whose order has no
arrival date, no order date and no creation date (effective date `None`,
landed cost 100, order 1) and one line effective on day 32 (landed cost 7,
order 2). -/
def c6Rows : List (PurchaseLine × PurchaseOrder) :=
  [ ({ sku := "X", qty := 5, landed_unit_cost := some 100 }, { id := 1 }),
    ({ sku := "X", qty := 5, landed_unit_cost := some 7 }, { id := 2, arrival_date := some 32 }) ]

/-! ## Helper lemmas -/

lemma enrichedOf_qty_pos {sku : String} {rows : List (PurchaseLine × PurchaseOrder)}
    {c : Cand} (hc : c ∈ enrichedOf sku rows) : 0 < c.qty := by
  unfold enrichedOf at hc
  obtain ⟨r, hr, hsome⟩ := List.mem_filterMap.1 hc
  by_cases hq : r.1.qty ≤ 0
  · rw [if_pos hq] at hsome
    cases hsome
  · rw [if_neg hq] at hsome
    injection hsome with h1
    rw [← h1]
    exact lt_of_not_le hq

lemma mem_candidatesOf {sku : String} {d : Option ℤ}
    {rows : List (PurchaseLine × PurchaseOrder)} {c : Cand}
    (hc : c ∈ candidatesOf sku d rows) : c ∈ enrichedOf sku rows := by
  unfold candidatesOf at hc
  split_ifs at hc
  · exact hc
  · exact List.mem_of_mem_filter hc

lemma candidatesOf_ne_nil {sku : String} {d : Option ℤ}
    {rows : List (PurchaseLine × PurchaseOrder)}
    (h : enrichedOf sku rows ≠ []) : candidatesOf sku d rows ≠ [] := by
  unfold candidatesOf
  split_ifs with hb
  · exact h
  · intro hnil
    rw [hnil] at hb
    exact hb rfl

lemma list_sum_map_mul_div {α : Type} (l : List α) (g : α → ℚ) (a B : ℚ) :
    (l.map fun x => a * g x / B).sum = a * (l.map g).sum / B := by
  induction l with
  | nil => simp
  | cons x t ih => simp [ih, mul_add, add_div]

lemma list_sum_pos_of_mem {l : List ℚ} (h0 : ∀ x ∈ l, 0 ≤ x)
    (hx : ∃ x ∈ l, 0 < x) : 0 < l.sum := by
  induction l with
  | nil => obtain ⟨x, hx, _⟩ := hx; cases hx
  | cons a t ih =>
    obtain ⟨x, hmem, hpos⟩ := hx
    rcases List.mem_cons.1 hmem with rfl | hmem
    · have ht : 0 ≤ t.sum := List.sum_nonneg fun y hy => h0 y (List.mem_cons_of_mem _ hy)
      simpa using add_pos_of_pos_of_nonneg hpos ht
    · have ha : 0 ≤ a := h0 a (List.mem_cons_self _ _)
      have ht : 0 < t.sum := ih (fun y hy => h0 y (List.mem_cons_of_mem _ hy)) ⟨x, hmem, hpos⟩
      simpa using add_pos_of_nonneg_of_pos ha ht

lemma alloc_sum_eq (f : ℚ) (base : PurchaseLine → ℚ) (lines : List PurchaseLine)
    (hB : 0 < (lines.map base).sum) :
    ((lines.map (allocLine f ((lines.map base).sum) base)).map
      (fun l => l.freight_allocated_total.getD 0)).sum = f := by
  rw [List.map_map]
  have hfun : ((fun l => l.freight_allocated_total.getD 0)
      ∘ allocLine f ((lines.map base).sum) base) = fun ln => f * base ln / (lines.map base).sum := by
    funext ln
    simp [allocLine, if_pos hB]
  rw [hfun, list_sum_map_mul_div, mul_div_assoc, div_self hB.ne', mul_one]

/-! ## Claim theorems -/

/-- C1, counterexample: a purchase order with `freight_total = 10`, the default
`"value"` allocation method and a single line of quantity 5 but zero unit cost
satisfies the claim's hypotheses (positive freight, a line with qty > 0), yet
the recomputed freight allocations sum to 0, not 10, far outside the one-cent
tolerance. -/
theorem c1_counterexample :
    (((recalc_allocations { freight_total := some 10, allocation_method := "value" }
        [{ qty := 5, unit_cost_net := 0 }]).map
        (fun l => l.freight_allocated_total.getD 0)).sum = 0)
    ∧ ¬(|(0:ℚ) - 10| ≤ 1/100 * 1) := by
  refine ⟨?_, by norm_num⟩
  norm_num [recalc_allocations, allocLine, allocZeroLine, qtyBase, valueBase]
  rw [if_neg (by decide)]
  norm_num

/-- C1 (amended): for a purchase order with `freight_total > 0`, non-negative
line quantities, at least one line with qty > 0, and — when the effective
method is not `"qty"` — a positive value base `Σ unitCostNet·qty`, the
recomputed freight allocations sum to the freight total exactly (hence within
any rounding tolerance). -/
theorem c1_freight_conservation (po : PurchaseOrder) (lines : List PurchaseLine)
    (f : ℚ) (hf : po.freight_total = some f) (hfpos : 0 < f)
    (hq : ∀ ln ∈ lines, 0 ≤ ln.qty)
    (hex : ∃ ln ∈ lines, 0 < ln.qty)
    (hvb : (if po.allocation_method = "" then "value" else po.allocation_method) ≠ "qty" →
      0 < (lines.map valueBase).sum) :
    ((recalc_allocations po lines).map
      (fun l => l.freight_allocated_total.getD 0)).sum = f := by
  unfold recalc_allocations
  rw [hf]
  simp only [Option.getD_some]
  rw [if_neg (not_le.mpr hfpos)]
  by_cases hm : (if po.allocation_method = "" then "value" else po.allocation_method) = "qty"
  · rw [if_pos hm]
    have hB : 0 < (lines.map qtyBase).sum := by
      apply list_sum_pos_of_mem
      · intro x hx
        obtain ⟨ln, hln, rfl⟩ := List.mem_map.1 hx
        have := hq ln hln
        simp only [qtyBase]
        exact_mod_cast this
      · obtain ⟨ln, hln, hpos⟩ := hex
        refine ⟨qtyBase ln, List.mem_map_of_mem _ hln, ?_⟩
        simp only [qtyBase]
        exact_mod_cast hpos
    exact alloc_sum_eq f qtyBase lines hB
  · rw [if_neg hm]
    exact alloc_sum_eq f valueBase lines (hvb hm)

/-- Witness for C1 (amended): two lines qty 30 and 10 with unit costs 2 and 1,
freight 40, method `"qty"`. -/
theorem c1_freight_conservation_witness :
    ((recalc_allocations { freight_total := some 40, allocation_method := "qty" }
      [{ qty := 30, unit_cost_net := 2 }, { qty := 10, unit_cost_net := 1 }]).map
      (fun l => l.freight_allocated_total.getD 0)).sum = 40 :=
  c1_freight_conservation _ _ 40 rfl (by norm_num)
    (by intro ln hln; fin_cases hln <;> norm_num)
    ⟨{ qty := 30, unit_cost_net := 2 }, by simp, by norm_num⟩
    (by intro h; norm_num [valueBase])

/-- C3: after `_recalc_allocations`, every resulting purchase line satisfies
`landedUnitCost = unitCostNet + freightAllocatedPerUnit + packagingPerUnit`
(null packaging read as 0), in all three branches (zero/null freight, qty
method, value method). -/
theorem c3_landed_cost_identity (po : PurchaseOrder) (lines : List PurchaseLine)
    (ln : PurchaseLine) (h : ln ∈ recalc_allocations po lines) :
    ln.landed_unit_cost = some (ln.unit_cost_net
      + ln.freight_allocated_per_unit.getD 0 + ln.packaging_per_unit.getD 0) := by
  unfold recalc_allocations at h
  split_ifs at h
  all_goals obtain ⟨x, _, rfl⟩ := List.mem_map.1 h
  all_goals simp [allocZeroLine, allocLine]

/-- Witness for C3 at a concrete no-freight order with one line. -/
theorem c3_landed_cost_identity_witness :
    allocZeroLine { unit_cost_net := 2, packaging_per_unit := some 3 }
      ∈ recalc_allocations ({} : PurchaseOrder) [{ unit_cost_net := 2, packaging_per_unit := some 3 }]
    ∧ (allocZeroLine { unit_cost_net := 2, packaging_per_unit := some 3 }).landed_unit_cost
      = some ((allocZeroLine { unit_cost_net := 2, packaging_per_unit := some 3 }).unit_cost_net
        + (allocZeroLine { unit_cost_net := 2, packaging_per_unit := some 3 }).freight_allocated_per_unit.getD 0
        + (allocZeroLine { unit_cost_net := 2, packaging_per_unit := some 3 }).packaging_per_unit.getD 0) := by
  have hmem : allocZeroLine { unit_cost_net := 2, packaging_per_unit := some 3 }
      ∈ recalc_allocations ({} : PurchaseOrder) [{ unit_cost_net := 2, packaging_per_unit := some 3 }] := by
    rw [recalc_allocations, if_pos (by norm_num [Option.getD])]
    exact List.mem_map_of_mem _ (List.mem_singleton_self _)
  exact ⟨hmem, c3_landed_cost_identity _ _ _ hmem⟩

/-- C7: under allocation method `"qty"` (the stored token for the
quantity method) with positive freight, every line's allocated freight total
is `freight * qty / Σqty`, and 0 for all lines when the quantity base is not
positive (in particular when `Σqty = 0`). -/
theorem c7_quantity_method (po : PurchaseOrder) (lines : List PurchaseLine) (f : ℚ)
    (hm : po.allocation_method = "qty") (hf : po.freight_total = some f)
    (hfpos : 0 < f) :
    (recalc_allocations po lines).map (fun l => l.freight_allocated_total)
      = lines.map (fun ln => some (if 0 < (lines.map qtyBase).sum
          then f * (ln.qty : ℚ) / (lines.map qtyBase).sum else 0)) := by
  unfold recalc_allocations
  rw [hf]
  simp only [Option.getD_some]
  rw [if_neg (not_le.mpr hfpos), hm]
  rw [show (if ("qty":String) = "" then "value" else "qty") = "qty" by decide]
  rw [if_pos rfl, List.map_map]
  rfl

/-- Witness for C7: the spec's example — lines of qty 30 and 10,
freight total 40 — receives allocations 30.00 and 10.00. -/
theorem c7_quantity_method_witness :
    (recalc_allocations { freight_total := some 40, allocation_method := "qty" }
      [{ qty := 30 }, { qty := 10 }]).map (fun l => l.freight_allocated_total)
      = [some 30, some 10] := by
  rw [c7_quantity_method _ _ 40 rfl rfl (by norm_num)]
  norm_num [qtyBase]

/-- C9: `_gross_to_net` divides the gross amount by `1 + vatRatePercent/100`,
except that a non-positive factor returns the gross unchanged. -/
theorem c9_gross_to_net (g v : ℚ) :
    (¬ 1 + v / 100 ≤ 0 → gross_to_net g (some v) = g / (1 + v / 100)) ∧
    (1 + v / 100 ≤ 0 → gross_to_net g (some v) = g) := by
  unfold gross_to_net
  constructor <;> intro h <;> simp [h]

/-- Witness for C9: an 18% VAT rate nets 118 to 100; the pathological rate
−200% leaves the gross unchanged. -/
theorem c9_gross_to_net_witness :
    gross_to_net 118 (some 18) = 100 ∧ gross_to_net 5 (some (-200)) = 5 := by
  constructor
  · have h := (c9_gross_to_net 118 18).1 (by norm_num)
    rw [h]; norm_num
  · exact (c9_gross_to_net 5 (-200)).2 (by norm_num)

/-- C2: at import commit, when `orderDiscountGross > 0` and `totalBase > 0`
each line's allocation is `orderDiscountGross * baseAfterLineDiscount / totalBase`
and the allocations sum to `orderDiscountGross` exactly; otherwise every
line's allocation is 0. -/
theorem c2_discount_allocation (ps : List Prepared) (odt : ℚ) :
    ((0 < odt ∧ 0 < totalBase ps) →
      (∀ p ∈ ps, orderDiscountAlloc odt (totalBase ps) p
        = odt * baseAfterLineDiscount p / totalBase ps) ∧
      (ps.map (orderDiscountAlloc odt (totalBase ps))).sum = odt) ∧
    (¬(0 < odt ∧ 0 < totalBase ps) →
      ∀ p ∈ ps, orderDiscountAlloc odt (totalBase ps) p = 0) := by
  constructor
  · intro h
    constructor
    · intro p _
      rw [orderDiscountAlloc, if_pos h, mul_div_assoc]
    · have hfun : orderDiscountAlloc odt (totalBase ps)
          = fun p => odt * baseAfterLineDiscount p / totalBase ps := by
        funext p
        rw [orderDiscountAlloc, if_pos h, mul_div_assoc]
      rw [hfun, list_sum_map_mul_div,
        show (ps.map baseAfterLineDiscount).sum = totalBase ps from rfl,
        mul_div_assoc, div_self h.2.ne', mul_one]
  · intro h p _
    rw [orderDiscountAlloc, if_neg h]

/-- Witness for C2: two lines with bases 15 and 5, order discount 4;
allocations 3 and 1 sum back to 4. -/
theorem c2_discount_allocation_witness :
    (0 < (4:ℚ) ∧ 0 < totalBase c2ps) ∧
    (c2ps.map (orderDiscountAlloc 4 (totalBase c2ps))).sum = 4 := by
  have hpos : 0 < (4:ℚ) ∧ 0 < totalBase c2ps := by
    constructor
    · norm_num
    · norm_num [c2ps, totalBase, baseAfterLineDiscount]
  exact ⟨hpos, (c2_discount_allocation c2ps 4).1 hpos |>.2⟩

/-- C10: when a SKU has no purchase lines at all (or none with positive
quantity), `_compute_unit_cost_basis` returns `(0, None)` instead of failing,
and a sales line built from that result in `import_commit` has
`profit = revenue_net` (its cost total is 0). -/
theorem c10_zero_history (rows : List (PurchaseLine × PurchaseOrder)) (sku : String)
    (sale_date : Option ℤ) (method : String) (odt tb : ℚ) (p : Prepared)
    (h : ∀ r ∈ rows, r.1.sku = sku → r.1.qty ≤ 0) :
    compute_unit_cost_basis sku sale_date method rows = (0, none) ∧
    (mkSalesLine odt tb (compute_unit_cost_basis sku sale_date method rows) p).profit
      = (mkSalesLine odt tb (compute_unit_cost_basis sku sale_date method rows) p).revenue_net := by
  have hbasis : compute_unit_cost_basis sku sale_date method rows = (0, none) := by
    unfold compute_unit_cost_basis
    by_cases hs : sku = ""
    · rw [if_pos hs]
    · rw [if_neg hs]
      have henr : enrichedOf sku rows = [] := by
        unfold enrichedOf
        apply List.filterMap_eq_nil_iff.2
        intro r hr
        have hmem := List.mem_of_mem_filter hr
        have hsku := of_decide_eq_true (List.mem_filter.1 hr).2
        rw [if_pos (h r hmem hsku)]
      by_cases hfil : (rows.filter (fun r => r.1.sku = sku)).isEmpty
      · rw [if_pos hfil]
      · rw [if_neg hfil, if_pos (by rw [henr]; rfl)]
  refine ⟨hbasis, ?_⟩
  rw [hbasis]
  simp [mkSalesLine]

/-- Witness for C10: a SKU with an empty purchase history resolves to
`(0, None)` and yields `profit = revenue_net` on the sales line. -/
theorem c10_zero_history_witness :
    compute_unit_cost_basis "X" (some 15) "weighted_avg" [] = (0, none) ∧
    (mkSalesLine 0 0 (compute_unit_cost_basis "X" (some 15) "weighted_avg" [])
      { sku := "X", qty := 2, unit_price_gross := 10 }).profit
      = (mkSalesLine 0 0 (compute_unit_cost_basis "X" (some 15) "weighted_avg" [])
        { sku := "X", qty := 2, unit_price_gross := 10 }).revenue_net :=
  c10_zero_history [] "X" (some 15) "weighted_avg" 0 0
    { sku := "X", qty := 2, unit_price_gross := 10 } (by simp)

/-- C4: with method `weighted_avg`, for a non-empty SKU with at least one
positive-quantity purchase line, `_compute_unit_cost_basis` returns the
quantity-weighted average `Σ(qty·cost)/Σ(qty)` over the candidate set with no
source order id (and the candidates' total quantity is positive, so the
`(0, None)` guard for `Σqty = 0` — also proved here on the guard itself —
is never taken); on the spec's example data the result is 6.00. -/
theorem c4_weighted_avg :
    (∀ (sku : String) (d : Option ℤ) (rows : List (PurchaseLine × PurchaseOrder)),
      sku ≠ "" → enrichedOf sku rows ≠ [] →
      compute_unit_cost_basis sku d "weighted_avg" rows
        = (((candidatesOf sku d rows).map fun c => (c.qty : ℚ) * c.cost).sum
            / ((candidatesOf sku d rows).map fun c => (c.qty : ℚ)).sum, none)
        ∧ 0 < ((candidatesOf sku d rows).map fun c => (c.qty : ℚ)).sum) ∧
    (∀ cands : List Cand, ((cands.map fun c => (c.qty : ℚ)).sum = 0) →
      wAvg cands = (0, none)) ∧
    compute_unit_cost_basis "X" (some 61) "weighted_avg" xRows = (6, none) := by
  have hex : compute_unit_cost_basis "X" (some 61) "weighted_avg" xRows = (6, none) := by
    have hc : candidatesOf "X" (some 61) xRows
        = [⟨some 1, 1, 10, 5⟩, ⟨some 32, 2, 10, 7⟩] := by decide
    unfold compute_unit_cost_basis
    rw [if_neg (by decide), if_neg (by decide), if_neg (by decide), if_neg (by decide), hc]
    norm_num [wAvg]
  refine ⟨?_, ?_, hex⟩
  · intro sku d rows hsku hne
    have hfil : ¬ (rows.filter fun r => r.1.sku = sku).isEmpty = true := by
      intro hf
      apply hne
      unfold enrichedOf
      rw [List.isEmpty_iff.1 hf]
      rfl
    have henr : ¬ (enrichedOf sku rows).isEmpty = true := by
      intro hf
      exact hne (List.isEmpty_iff.1 hf)
    have htq : 0 < ((candidatesOf sku d rows).map fun c => (c.qty : ℚ)).sum := by
      apply list_sum_pos_of_mem
      · intro x hx
        obtain ⟨c, hc, rfl⟩ := List.mem_map.1 hx
        exact le_of_lt (by exact_mod_cast enrichedOf_qty_pos (mem_candidatesOf hc))
      · obtain ⟨c, hc⟩ := List.exists_mem_of_ne_nil _ (candidatesOf_ne_nil hne (d := d))
        refine ⟨(c.qty : ℚ), List.mem_map_of_mem _ hc, ?_⟩
        exact_mod_cast enrichedOf_qty_pos (mem_candidatesOf hc)
    refine ⟨?_, htq⟩
    unfold compute_unit_cost_basis
    rw [if_neg hsku, if_neg hfil, if_neg henr, if_neg (by decide)]
    unfold wAvg
    rw [if_neg (not_le.mpr htq)]
  · intro cands h
    unfold wAvg
    rw [if_pos (le_of_eq h)]

/-- Witness for C4: the general weighted-average statement applied to the
spec's example data (sale on day 61, i.e. 2024-03-01). -/
theorem c4_weighted_avg_witness :
    compute_unit_cost_basis "X" (some 61) "weighted_avg" xRows
      = (((candidatesOf "X" (some 61) xRows).map fun c => (c.qty : ℚ) * c.cost).sum
          / ((candidatesOf "X" (some 61) xRows).map fun c => (c.qty : ℚ)).sum, none)
      ∧ 0 < ((candidatesOf "X" (some 61) xRows).map fun c => (c.qty : ℚ)).sum :=
  c4_weighted_avg.1 "X" (some 61) xRows (by decide) (by decide)

/-- C5: when at least one positive-quantity line of the SKU has a known
effective date ≤ the sale date, the candidate set is exactly those lines;
when no line qualifies, the candidate set falls back to all positive-quantity
lines; and the spec's temporal-boundary example (sale on day 15, i.e.
2024-01-15, method `last`) resolves to cost 5.00 from order 1. -/
theorem c5_temporal_candidates :
    (∀ (sku : String) (d : Option ℤ) (rows : List (PurchaseLine × PurchaseOrder)),
      (∃ c ∈ enrichedOf sku rows, isBefore d c = true) →
      candidatesOf sku d rows = (enrichedOf sku rows).filter (isBefore d)) ∧
    (∀ (sku : String) (d : Option ℤ) (rows : List (PurchaseLine × PurchaseOrder)),
      (∀ c ∈ enrichedOf sku rows, ¬ isBefore d c = true) →
      candidatesOf sku d rows = enrichedOf sku rows) ∧
    compute_unit_cost_basis "X" (some 15) "last" xRows = (5, some 1) := by
  refine ⟨?_, ?_, by decide⟩
  · intro sku d rows ⟨c, hc, hb⟩
    unfold candidatesOf
    rw [if_neg]
    · rfl
    · intro hf
      have : c ∈ beforeOf sku d rows := List.mem_filter.2 ⟨hc, hb⟩
      rw [List.isEmpty_iff.1 hf] at this
      cases this
  · intro sku d rows h
    unfold candidatesOf
    rw [if_pos]
    rw [List.isEmpty_iff]
    exact List.filter_eq_nil_iff.2 (by simpa using h)

/-- Witness for C5: on the example data with sale date 15, the candidate set
is exactly the `before` subset. -/
theorem c5_temporal_candidates_witness :
    candidatesOf "X" (some 15) xRows = (enrichedOf "X" xRows).filter (isBefore (some 15)) :=
  c5_temporal_candidates.1 "X" (some 15) xRows
    ⟨⟨some 1, 1, 10, 5⟩, by decide, by decide⟩

/-- C6, code evaluation at the failing input: the sort key
`(x[0] is None, x[0])` combined with `reverse=True` places a *missing*
effective date first, not last, so method `last` selects the `None`-dated
line (cost 100, order 1) even though a line with a known effective date
(cost 7, order 2) is among the candidates — contradicting both the spec and
the code's own comment `# Sort newest first by effective date (None last)`. -/
theorem c6_none_date_selected :
    compute_unit_cost_basis "X" (some 15) "last" c6Rows = (100, some 1) := by
  decide

lemma floor_half_abs (z : ℚ) : |(⌊z + 1/2⌋ : ℚ) - z| ≤ 1/2 := by
  have h1 := Int.floor_le (z + 1/2)
  have h2 := Int.sub_one_lt_floor (z + 1/2)
  rw [abs_le]
  constructor <;> linarith

lemma roundHalfUpInt_abs (y : ℚ) : |(roundHalfUpInt y : ℚ) - y| ≤ 1/2 := by
  unfold roundHalfUpInt
  split_ifs with hneg
  · have h := floor_half_abs (-y)
    push_cast
    have he : -((⌊-y + 1/2⌋ : ℚ)) - y = -((⌊-y + 1/2⌋ : ℚ) - (-y)) := by ring
    rw [he, abs_neg]
    exact h
  · exact floor_half_abs y

/-- C8, counterexample: `calculate_sale_metrics` stores net revenue quantized
with the `Decimal` *default* rounding (half-even), not half-up: at gross price
10.125 and VAT rate 0 it persists 10.12, while rounding half-up (`_q2`) gives
10.13. -/
theorem c8_counterexample :
    (calculate_sale_metrics (81/8) 0 0 0 0 0 0).1 = 253/25 ∧
    q2 (81/8) = 1013/100 ∧ ((253:ℚ)/25) ≠ 1013/100 := by
  refine ⟨?_, ?_, by norm_num⟩
  · norm_num [calculate_sale_metrics, q2HalfEven, roundHalfEvenInt]
  · norm_num [q2, roundHalfUpInt]

/-- C8 (amended): `_q2` (the API sale path) does round persisted amounts to
2 decimals half-up — its output is an integer number of cents within half a
cent of the input, and `compute_snapshots` stores exactly `_q2` of each of
its three outputs; but `calculate_sale_metrics` quantizes with round-half-even
instead, and the sales import commit persists `revenue_net` at full precision
(e.g. 50/59, which is not a whole number of cents). -/
theorem c8_rounding_amended :
    (∀ x : ℚ, (∃ n : ℤ, q2 x = (n : ℚ) / 100) ∧ |q2 x - x| ≤ 1/200) ∧
    (∀ g v c : ℚ, compute_snapshots g v c
      = (q2 (g / (1 + v)), q2 (g - q2 (g / (1 + v))), q2 (q2 (g / (1 + v)) - c))) ∧
    (∀ s v a b c d e : ℚ,
      (calculate_sale_metrics s v a b c d e).1 = q2HalfEven (s / (1 + v))) ∧
    ((mkSalesLine 0 0 (0, none) { sku := "X", qty := 1, unit_price_gross := 1 }).revenue_net
        = 50/59
      ∧ ∀ n : ℤ, (n : ℚ) / 100 ≠ 50/59) := by
  refine ⟨?_, fun g v c => rfl, fun s v a b c d e => rfl, ?_, ?_⟩
  · intro x
    refine ⟨⟨roundHalfUpInt (100*x), rfl⟩, ?_⟩
    have key := roundHalfUpInt_abs (100*x)
    have he : q2 x - x = ((roundHalfUpInt (100*x) : ℚ) - 100*x) / 100 := by
      unfold q2
      ring
    rw [he, abs_div, abs_of_pos (by norm_num : (0:ℚ) < 100)]
    linarith
  · norm_num [mkSalesLine, orderDiscountAlloc, baseAfterLineDiscount, gross_to_net]
  · intro n h
    have h2 : (n : ℚ) * 59 = 5000 := by
      field_simp at h
      linarith
    have h3 : n * 59 = 5000 := by exact_mod_cast h2
    omega

/-- Witness for C8 (amended): the half-up rounding property of `_q2`
instantiated at 10.125. -/
theorem c8_rounding_amended_witness :
    (∃ n : ℤ, q2 (81/8) = (n : ℚ) / 100) ∧ |q2 (81/8) - 81/8| ≤ 1/200 :=
  c8_rounding_amended.1 (81/8)
